import Mathlib

/-!
Verification development for the Spacewar-js repository.

The JavaScript sources are shallowly embedded: JS numbers are modelled as
real numbers, mutating vector methods become functions returning the new
value, and every call to the global random generator is made explicit by
threading a stream of draws (a function from an index to a real number).
-/

namespace Spacewar

/-- Embedding of the Vector2 class (Vector2.js, src/unnamed/part_009). -/
structure Vec where
  x : ℝ
  y : ℝ

namespace Vec

/-- Method add of Vector2: componentwise addition (mutates this in JS). -/
noncomputable def add (v w : Vec) : Vec := ⟨v.x + w.x, v.y + w.y⟩

/-- Static Vector2.subtract: componentwise difference of two vectors. -/
noncomputable def subtract (v w : Vec) : Vec := ⟨v.x - w.x, v.y - w.y⟩

/-- Method multiply of Vector2: scale both components by a scalar. -/
noncomputable def multiply (v : Vec) (s : ℝ) : Vec := ⟨v.x * s, v.y * s⟩

/-- Method divide of Vector2: divide by a scalar, guarded against zero. -/
noncomputable def divide (v : Vec) (s : ℝ) : Vec :=
  if s ≠ 0 then ⟨v.x / s, v.y / s⟩ else v

/-- Method magnitudeSquared of Vector2. -/
noncomputable def magnitudeSquared (v : Vec) : ℝ := v.x * v.x + v.y * v.y

/-- Method magnitude of Vector2. -/
noncomputable def magnitude (v : Vec) : ℝ := Real.sqrt (v.x * v.x + v.y * v.y)

/-- Method normalize of Vector2: divide by the magnitude when positive. -/
noncomputable def normalize (v : Vec) : Vec :=
  if v.magnitude > 0 then v.divide v.magnitude else v

/-- Method distanceTo of Vector2. -/
noncomputable def distanceTo (v w : Vec) : ℝ :=
  Real.sqrt ((w.x - v.x) * (w.x - v.x) + (w.y - v.y) * (w.y - v.y))

/-- Static Vector2.fromAngle. -/
noncomputable def fromAngle (angle : ℝ) : Vec := ⟨Real.cos angle, Real.sin angle⟩

end Vec

/-- Embedding of the Sun class (src/Sun.js): the central gravity source. -/
structure Sun where
  position : Vec
  mass : ℝ
  radius : ℝ

namespace Sun

/-- Embedding of Sun.getGravitationalForce (src/Sun.js lines 18 to 37). -/
noncomputable def getGravitationalForce (sun : Sun) (objectPosition : Vec)
    (objectMass : ℝ) (G : ℝ) : Vec :=
  let direction := Vec.subtract sun.position objectPosition
  let distanceSquared := direction.magnitudeSquared
  let distance := Real.sqrt distanceSquared
  if distance < sun.radius then ⟨0, 0⟩
  else
    let forceMagnitude := G * sun.mass * objectMass / distanceSquared
    (direction.normalize).multiply forceMagnitude

/-- Embedding of Sun.isColliding (src/Sun.js lines 42 to 45). -/
noncomputable def isColliding (sun : Sun) (position : Vec) (objectRadius : ℝ) : Prop :=
  sun.position.distanceTo position < sun.radius + objectRadius

end Sun

/-- Model of Math.atan2: the argument of the complex number x + y i. -/
noncomputable def atan2 (y x : ℝ) : ℝ := Complex.arg { re := x, im := y }

/-- Cosmetic explosion debris particle (Ship.createExplosion in src/Ship.js). -/
structure Particle where
  x : ℝ
  y : ℝ
  vx : ℝ
  vy : ℝ
  life : ℝ
  maxLife : ℝ
  decay : ℝ
  length : ℝ

/-- Embedding of Ship.createExplosion (src/Ship.js lines 252 to 275).
The calls to Math.random are threaded explicitly: particle i consumes the
draws at indices 5 i to 5 i + 4 of the stream r, in source evaluation order
(speed, vx jitter, vy jitter, decay, length). -/
noncomputable def createExplosion (r : ℕ → ℝ) (x y : ℝ) : List Particle :=
  (List.range 20).map fun (i : ℕ) =>
    let angle := Real.pi * 2 * (i : ℝ) / 20
    let speed := 2 + r (5 * i) * 3
    { x := x
      y := y
      vx := Real.cos angle * speed + (r (5 * i + 1) - 0.5)
      vy := Real.sin angle * speed + (r (5 * i + 2) - 0.5)
      life := 1.0
      maxLife := 1.0
      decay := 0.02 + r (5 * i + 3) * 0.03
      length := 5 + r (5 * i + 4) * 10 }

/-- Embedding of Ship.updateExplosion (src/Ship.js lines 280 to 291): every
particle advances by its velocity and decays, and particles whose life has
run out are removed (the reverse-order splice loop of the source preserves
the relative order of the survivors, so it is a map followed by a filter). -/
noncomputable def updateExplosionList (l : List Particle) : List Particle :=
  (l.map fun p => { p with x := p.x + p.vx, y := p.y + p.vy, life := p.life - p.decay }).filter
    fun p => !decide (p.life ≤ 0)

/-- Embedding of the Bullet class shared by the two velocity-inheriting
variants (src/unnamed/part_001 and src/unnamed/part_002). The age counter is
modelled as an Option: none stands for the undefined/NaN counter of the
source, whose increments stay NaN and whose comparisons are all false. -/
structure Bullet where
  position : Vec
  velocity : Vec
  radius : ℝ
  mass : ℝ
  active : Bool
  ownerId : ℤ
  color : ℕ
  lifetime : ℝ
  maxLifetime : ℝ
  age : Option ℝ
  trail : List Vec
  maxTrailLength : ℕ

/-- Embedding of the Bullet constructor of src/unnamed/part_001 and
src/unnamed/part_002: the bullet inherits the firing ship's velocity plus a
muzzle speed of 4 along the firing angle; the age field is never
initialized in the source, hence none. -/
noncomputable def mkBullet (x y angle : ℝ) (shipVelocity : Vec) (ownerId : ℤ)
    (color : ℕ) : Bullet :=
  { position := ⟨x, y⟩
    velocity := ⟨shipVelocity.x + Real.cos angle * 4, shipVelocity.y + Real.sin angle * 4⟩
    radius := 2
    mass := 0.1
    active := true
    ownerId := ownerId
    color := color
    lifetime := 200
    maxLifetime := 200
    age := none
    trail := []
    maxTrailLength := 5 }

namespace Bullet

/-- Embedding of Bullet.applyForce (identical in all variants). -/
noncomputable def applyForce (force : Vec) (b : Bullet) : Bullet :=
  { b with velocity := b.velocity.add (force.multiply (1 / b.mass)) }

/-- Embedding of Bullet.checkCollision (src/unnamed/part_001 lines 156 to
160, identical in the other variants): false when inactive, otherwise a
circle-circle overlap test. -/
noncomputable def checkCollision (b : Bullet) (position : Vec) (radius : ℝ) : Prop :=
  b.active = true ∧ b.position.distanceTo position < b.radius + radius

/-- Embedding of Bullet.isOffScreen (src/unnamed/part_002 lines 77 to 84):
outside the circular play area. -/
noncomputable def isOffScreen (b : Bullet) (canvasWidth canvasHeight : ℝ) : Prop :=
  let dx := b.position.x - canvasWidth / 2
  let dy := b.position.y - canvasHeight / 2
  Real.sqrt (dx * dx + dy * dy) > canvasHeight / 2 - 10

/-- Embedding of Bullet.update of src/unnamed/part_001 lines 134 to 151: the
position advances by the velocity, the uninitialized age counter is
incremented (NaN stays NaN, modelled by Option.map on none), the lifetime
comparison against the NaN age is always false, and the bullet is retired on
leaving the rectangular canvas. -/
noncomputable def updateOld (canvasWidth canvasHeight : ℝ) (b : Bullet) : Bullet :=
  if b.active = false then b
  else
    let b1 := { b with position := b.position.add b.velocity }
    let b2 := { b1 with age := b1.age.map fun a => a + 1 }
    let b3 :=
      match b2.age with
      | none => b2
      | some a => if a ≥ b2.lifetime then { b2 with active := false } else b2
    if b3.position.x < 0 ∨ b3.position.x > canvasWidth ∨
        b3.position.y < 0 ∨ b3.position.y > canvasHeight then
      { b3 with active := false }
    else b3

open Classical in
/-- Embedding of Bullet.update of src/unnamed/part_002 lines 43 to 72: push
the current position on the trail (with shift past the maximum length),
advance the position, increment the (still uninitialized) age, decrement the
lifetime and retire at zero, and retire on leaving the circular play area. -/
noncomputable def updateNew (canvasWidth canvasHeight : ℝ) (b : Bullet) : Bullet :=
  if b.active = false then b
  else
    let trail1 := b.trail ++ [b.position]
    let b1 := { b with trail := if trail1.length > b.maxTrailLength then trail1.tail else trail1 }
    let b2 := { b1 with position := b1.position.add b1.velocity }
    let b3 := { b2 with age := b2.age.map fun a => a + 1, lifetime := b2.lifetime - 1 }
    let b4 := if b3.lifetime ≤ 0 then { b3 with active := false } else b3
    if b4.isOffScreen canvasWidth canvasHeight then { b4 with active := false } else b4

end Bullet

/-- Embedding of the Bullet class of src/unnamed/part_003 (the angle-free
variant): the firer precomputes the absolute velocity, and the age counter
is explicitly initialized to 0. -/
structure BulletB where
  position : Vec
  velocity : Vec
  mass : ℝ
  radius : ℝ
  ownerId : ℤ
  lifetime : ℝ
  age : ℝ
  active : Bool

/-- Embedding of the Bullet constructor of src/unnamed/part_003. -/
noncomputable def mkBulletB (x y : ℝ) (velocity : Vec) (ownerId : ℤ) : BulletB :=
  { position := ⟨x, y⟩
    velocity := velocity
    mass := 0.1
    radius := 2
    ownerId := ownerId
    lifetime := 300
    age := 0
    active := true }

namespace BulletB

/-- Embedding of Bullet.update of src/unnamed/part_003 lines 30 to 47:
advance the position, increment the age, retire when the age reaches the
lifetime, and retire on leaving the rectangular canvas. -/
noncomputable def update (canvasWidth canvasHeight : ℝ) (b : BulletB) : BulletB :=
  if b.active = false then b
  else
    let b1 := { b with position := b.position.add b.velocity }
    let b2 := { b1 with age := b1.age + 1 }
    let b3 := if b2.age ≥ b2.lifetime then { b2 with active := false } else b2
    if b3.position.x < 0 ∨ b3.position.x > canvasWidth ∨
        b3.position.y < 0 ∨ b3.position.y > canvasHeight then
      { b3 with active := false }
    else b3

end BulletB

/-- Embedding of the Ship class state (src/Ship.js constructor). The color
string is abstracted to a numeric tag; it is only handed to spawned bullets
and to the renderer. -/
structure Ship where
  id : ℤ
  position : Vec
  velocity : Vec
  angle : ℝ
  mass : ℝ
  radius : ℝ
  color : ℕ
  thrustPower : ℝ
  rotationSpeed : ℝ
  lives : ℤ
  active : Bool
  respawnTimer : ℤ
  respawnDelay : ℤ
  startPosition : Vec
  startAngle : ℝ
  shootCooldown : ℤ
  shootCooldownMax : ℤ
  explosionParticles : List Particle
  maxEnergy : ℝ
  energy : ℝ
  shieldActive : Bool
  hyperspaceCharges : ℤ
  hyperspaceCooldown : ℤ
  hyperspaceCooldownMax : ℤ
  maxFuel : ℝ
  fuel : ℝ
  fuelEnabled : Bool

namespace Ship

/-- Embedding of the Ship constructor (src/Ship.js lines 7 to 50). -/
noncomputable def init (x y angle : ℝ) (id : ℤ) (color : ℕ) : Ship :=
  { id := id
    position := ⟨x, y⟩
    velocity := ⟨0, 0⟩
    angle := angle
    mass := 1
    radius := 10
    color := color
    thrustPower := 0.07
    rotationSpeed := 0.05
    lives := 5
    active := true
    respawnTimer := 0
    respawnDelay := 120
    startPosition := ⟨x, y⟩
    startAngle := angle
    shootCooldown := 0
    shootCooldownMax := 30
    explosionParticles := []
    maxEnergy := 100
    energy := 100
    shieldActive := false
    hyperspaceCharges := 3
    hyperspaceCooldown := 0
    hyperspaceCooldownMax := 60
    maxFuel := 1000
    fuel := 1000
    fuelEnabled := false }

open Classical in
/-- Embedding of Ship.thrust (src/Ship.js lines 52 to 70): refused while
inactive or out of fuel (when the fuel subsystem is on, which also debits
fuel), otherwise adds a thrust vector along the heading and clamps the
velocity magnitude to the maximum speed 2.25. -/
noncomputable def thrust (s : Ship) : Ship :=
  if s.active = false then s
  else if s.fuelEnabled = true ∧ s.fuel ≤ 0 then s
  else
    let s1 := if s.fuelEnabled = true then { s with fuel := s.fuel - 1.5 } else s
    let thrustVector := (Vec.fromAngle s1.angle).multiply s1.thrustPower
    let v := s1.velocity.add thrustVector
    let maxSpeed : ℝ := 2.25
    if v.magnitude > maxSpeed then
      { s1 with velocity := (v.normalize).multiply maxSpeed }
    else
      { s1 with velocity := v }

open Classical in
/-- Embedding of Ship.rotate (src/Ship.js lines 127 to 138). -/
noncomputable def rotate (direction : ℝ) (s : Ship) : Ship :=
  if s.active = false then s
  else if s.fuelEnabled = true ∧ s.fuel ≤ 0 then s
  else
    let s1 := if s.fuelEnabled = true then { s with fuel := s.fuel - 0.2 } else s
    { s1 with angle := s1.angle + direction * s1.rotationSpeed }

/-- Embedding of Ship.applyForce (src/Ship.js lines 143 to 147). -/
noncomputable def applyForce (force : Vec) (s : Ship) : Ship :=
  { s with velocity := s.velocity.add (force.multiply (1 / s.mass)) }

open Classical in
/-- Embedding of Ship.setShield (src/Ship.js lines 111 to 122): forced off
while inactive; raised only when requested with energy above 5. -/
noncomputable def setShield (active : Bool) (s : Ship) : Ship :=
  if s.active = false then { s with shieldActive := false }
  else if active = true ∧ s.energy > 5 then { s with shieldActive := true }
  else { s with shieldActive := false }

open Classical in
/-- Embedding of Ship.die (src/Ship.js lines 221 to 244): no-op while already
inactive; otherwise decrement lives, deactivate, arm the respawn timer,
clear the shield, refill energy and emit explosion debris at the current
position (the sound side effect is outside the model). -/
noncomputable def die (r : ℕ → ℝ) (s : Ship) : Ship :=
  if s.active = false then s
  else
    { s with
      lives := s.lives - 1
      active := false
      respawnTimer := s.respawnDelay
      shieldActive := false
      energy := s.maxEnergy
      explosionParticles := createExplosion r s.position.x s.position.y }

open Classical in
/-- Embedding of Ship.hyperspace (src/Ship.js lines 75 to 106): refused while
inactive, on cooldown or out of charges; otherwise one charge is consumed,
the cooldown is armed, a draw below 0.15 malfunctions into die, and
otherwise the ship teleports to a random position with zeroed velocity and
an entrance burst. Draw 0 is the malfunction roll, draws 1 and 2 the new
coordinates, the rest feed createExplosion. -/
noncomputable def hyperspace (r : ℕ → ℝ) (s : Ship) : Ship :=
  if s.active = false ∨ s.hyperspaceCooldown > 0 ∨ s.hyperspaceCharges ≤ 0 then s
  else
    let s1 := { s with
      hyperspaceCharges := s.hyperspaceCharges - 1
      hyperspaceCooldown := s.hyperspaceCooldownMax }
    if r 0 < 0.15 then die (fun n => r (n + 1)) s1
    else
      let px := r 1 * 800
      let py := r 2 * 800
      { s1 with
        position := ⟨px, py⟩
        velocity := ⟨0, 0⟩
        explosionParticles := createExplosion (fun n => r (n + 3)) px py }

/-- Embedding of Ship.resetToStart (src/Ship.js lines 307 to 320). -/
noncomputable def resetToStart (s : Ship) : Ship :=
  { s with
    velocity := ⟨0, 0⟩
    angle := s.startAngle
    position := s.startPosition
    explosionParticles := []
    energy := s.maxEnergy
    fuel := s.maxFuel
    shieldActive := false
    hyperspaceCooldown := 0
    hyperspaceCharges := 3 }

/-- Embedding of Ship.respawn (src/Ship.js lines 296 to 302): refused when
out of lives, otherwise reset to start and reactivate. -/
noncomputable def respawn (s : Ship) : Ship :=
  if s.lives ≤ 0 then s
  else { s.resetToStart with active := true, respawnTimer := 0 }

open Classical in
/-- Embedding of Ship.update (src/Ship.js lines 152 to 201): tick the two
cooldowns, drain or regenerate shield energy (lowering the shield the tick
energy hits zero), then either advance the respawn countdown and the death
debris while inactive, or integrate the position and apply the circular
wrap-through-center boundary while active. -/
noncomputable def update (canvasWidth canvasHeight : ℝ) (s : Ship) : Ship :=
  let s1 := { s with
    shootCooldown := if s.shootCooldown > 0 then s.shootCooldown - 1 else s.shootCooldown
    hyperspaceCooldown :=
      if s.hyperspaceCooldown > 0 then s.hyperspaceCooldown - 1 else s.hyperspaceCooldown }
  let s2 :=
    if s1.shieldActive = true then
      if s1.energy - 0.5 ≤ 0 then { s1 with energy := 0, shieldActive := false }
      else { s1 with energy := s1.energy - 0.5 }
    else
      if s1.energy < s1.maxEnergy then { s1 with energy := s1.energy + 0.025 } else s1
  if s2.active = false then
    let s3 := { s2 with respawnTimer := s2.respawnTimer - 1 }
    let s4 := if s3.respawnTimer ≤ 0 then s3.respawn else s3
    { s4 with explosionParticles := updateExplosionList s4.explosionParticles }
  else
    let s3 := { s2 with position := s2.position.add s2.velocity }
    let dx := s3.position.x - canvasWidth / 2
    let dy := s3.position.y - canvasHeight / 2
    let distanceFromCenter := Real.sqrt (dx * dx + dy * dy)
    let playRadius := canvasHeight / 2 - 10
    if distanceFromCenter > playRadius then
      let angle := atan2 dy dx
      { s3 with position :=
          ⟨canvasWidth / 2 - Real.cos angle * playRadius * 0.9,
           canvasHeight / 2 - Real.sin angle * playRadius * 0.9⟩ }
    else s3

open Classical in
/-- Embedding of Ship.shoot (src/Ship.js lines 206 to 216): null while on
cooldown or inactive, otherwise arm the cooldown and return a bullet spawned
at the nose inheriting the ship's velocity. -/
noncomputable def shoot (s : Ship) : Ship × Option Bullet :=
  if s.shootCooldown > 0 ∨ s.active = false then (s, none)
  else
    let bulletX := s.position.x + Real.cos s.angle * s.radius
    let bulletY := s.position.y + Real.sin s.angle * s.radius
    ({ s with shootCooldown := s.shootCooldownMax },
      some (mkBullet bulletX bulletY s.angle s.velocity s.id s.color))

open Classical in
/-- Embedding of Ship.addFuel (src/Ship.js lines 491 to 497). -/
noncomputable def addFuel (amount : ℝ) (s : Ship) : Ship :=
  if s.active = false then s
  else
    let f := s.fuel + amount
    { s with fuel := if f > s.maxFuel then s.maxFuel else f }

/-- Embedding of the per-ship reset performed by Game.startGame
(src/Game.js lines 796 to 802 and 804 to 810). -/
noncomputable def startGameReset (fuelOn : Bool) (s : Ship) : Ship :=
  { s with
    lives := 5
    position := s.startPosition
    velocity := ⟨0, 0⟩
    angle := s.startAngle
    active := true
    respawnTimer := 0
    fuelEnabled := fuelOn }

end Ship

/-- Fate of a bullet in the per-bullet collision pass of Game.update:
removed (spliced out), cleared (the whole bullet list is discarded after a
kill in the shielded variant; in the plain variant a kill just splices), or
kept for the next tick. -/
inductive BulletFate where
  | removed : BulletFate
  | cleared : BulletFate
  | kept : BulletFate

open Classical in
/-- Embedding of the projectile-versus-ship resolution in the bullet loop of
Game.update, plain variant (src/Game.js lines 228 to 243): a bullet never
tests against its owner's ship; a hit kills the target outright (no shield
check in this variant) and resets the opponent to start. -/
noncomputable def resolveBullet (r : ℕ → ℝ) (b : Bullet) (s1 s2 : Ship) :
    Ship × Ship × BulletFate :=
  if b.ownerId ≠ s1.id ∧ b.checkCollision s1.position s1.radius then
    (Ship.die r s1, s2.resetToStart, BulletFate.removed)
  else if b.ownerId ≠ s2.id ∧ b.checkCollision s2.position s2.radius then
    (s1.resetToStart, Ship.die r s2, BulletFate.removed)
  else (s1, s2, BulletFate.kept)

open Classical in
/-- Embedding of the projectile-versus-ship resolution in the bullet loop of
Game.update, shielded variant (src/unnamed/part_006 lines 307 to 344): a
bullet never tests against its owner's ship; the hit circle grows by 8 while
the target's shield is up; a shielded hit destroys only the bullet, an
unshielded hit kills the target, resets the opponent to start and clears the
whole bullet list. -/
noncomputable def resolveBulletShield (r : ℕ → ℝ) (b : Bullet) (s1 s2 : Ship) :
    Ship × Ship × BulletFate :=
  if b.ownerId ≠ s1.id ∧
      b.checkCollision s1.position (s1.radius + if s1.shieldActive = true then 8 else 0) then
    if s1.shieldActive = true then (s1, s2, BulletFate.removed)
    else (Ship.die r s1, s2.resetToStart, BulletFate.cleared)
  else if b.ownerId ≠ s2.id ∧
      b.checkCollision s2.position (s2.radius + if s2.shieldActive = true then 8 else 0) then
    if s2.shieldActive = true then (s1, s2, BulletFate.removed)
    else (s1.resetToStart, Ship.die r s2, BulletFate.cleared)
  else (s1, s2, BulletFate.kept)

/-- One mutation of a single ship's state, as performed somewhere in
Game.update or Game.startGame (src/Game.js): every call site that mutates a
Ship appears as one constructor. -/
inductive ShipStep : Ship → Ship → Prop where
  | thrust (s : Ship) : ShipStep s s.thrust
  | rotate (d : ℝ) (s : Ship) : ShipStep s (Ship.rotate d s)
  | applyForce (f : Vec) (s : Ship) : ShipStep s (Ship.applyForce f s)
  | setShield (b : Bool) (s : Ship) : ShipStep s (Ship.setShield b s)
  | shoot (s : Ship) : ShipStep s s.shoot.1
  | hyperspace (r : ℕ → ℝ) (s : Ship) : ShipStep s (Ship.hyperspace r s)
  | die (r : ℕ → ℝ) (s : Ship) : ShipStep s (Ship.die r s)
  | respawn (s : Ship) : ShipStep s s.respawn
  | resetToStart (s : Ship) : ShipStep s s.resetToStart
  | update (w h : ℝ) (s : Ship) : ShipStep s (Ship.update w h s)
  | addFuel (a : ℝ) (s : Ship) : ShipStep s (Ship.addFuel a s)
  | startGameReset (b : Bool) (s : Ship) : ShipStep s (Ship.startGameReset b s)

/-- Ship states reachable from a freshly constructed ship through any
sequence of the game's ship mutations. -/
inductive Reachable : Ship → Prop where
  | init (x y angle : ℝ) (id : ℤ) (color : ℕ) : Reachable (Ship.init x y angle id color)
  | step {s t : Ship} : Reachable s → ShipStep s t → Reachable t

/-- The energy bookkeeping invariant: the capacity is the constructor's 100
and the level is a multiple of the regeneration step 0.025 (one fortieth),
at most the capacity. Drain (0.5) is twenty regeneration steps, so every
operation keeps the level on this grid. -/
def EnergyInv (s : Ship) : Prop :=
  s.maxEnergy = 100 ∧ ∃ k : ℕ, k ≤ 4000 ∧ s.energy = (k : ℝ) / 40

/-- The shield coherence invariant: an inactive ship never has its shield
raised. -/
def ShieldInv (s : Ship) : Prop := s.active = false → s.shieldActive = false

namespace AI

/-- The first while loop of AI.getAngleDifference (src/AI.js lines 185 to
190 and src/unnamed/part_000 lines 143 to 148): subtract two pi while the
difference exceeds pi. -/
noncomputable def wrapDown (d : ℝ) : ℝ :=
  if h : d > Real.pi then wrapDown (d - 2 * Real.pi) else d
termination_by Nat.ceil ((d - Real.pi) / (2 * Real.pi))
decreasing_by
  have hpi := Real.pi_pos
  have hx : 0 < (d - Real.pi) / (2 * Real.pi) := by
    apply div_pos (by linarith) (by linarith)
  have harg : (d - 2 * Real.pi - Real.pi) / (2 * Real.pi)
      = (d - Real.pi) / (2 * Real.pi) - 1 := by
    field_simp
    ring
  have h1 : 1 ≤ Nat.ceil ((d - Real.pi) / (2 * Real.pi)) := Nat.ceil_pos.mpr hx
  have h2 : Nat.ceil ((d - 2 * Real.pi - Real.pi) / (2 * Real.pi))
      ≤ Nat.ceil ((d - Real.pi) / (2 * Real.pi)) - 1 := by
    rw [harg]
    apply Nat.ceil_le.mpr
    rw [Nat.cast_sub h1]
    have h3 := Nat.le_ceil ((d - Real.pi) / (2 * Real.pi))
    push_cast
    linarith
  calc Nat.ceil ((d - 2 * Real.pi - Real.pi) / (2 * Real.pi))
      ≤ Nat.ceil ((d - Real.pi) / (2 * Real.pi)) - 1 := h2
    _ < Nat.ceil ((d - Real.pi) / (2 * Real.pi)) := Nat.sub_lt (by omega) (by omega)

/-- The second while loop of AI.getAngleDifference: add two pi while the
difference is below minus pi. -/
noncomputable def wrapUp (d : ℝ) : ℝ :=
  if h : d < -Real.pi then wrapUp (d + 2 * Real.pi) else d
termination_by Nat.ceil ((-Real.pi - d) / (2 * Real.pi))
decreasing_by
  have hpi := Real.pi_pos
  have hx : 0 < (-Real.pi - d) / (2 * Real.pi) := by
    apply div_pos (by linarith) (by linarith)
  have harg : (-Real.pi - (d + 2 * Real.pi)) / (2 * Real.pi)
      = (-Real.pi - d) / (2 * Real.pi) - 1 := by
    field_simp
    ring
  have h1 : 1 ≤ Nat.ceil ((-Real.pi - d) / (2 * Real.pi)) := Nat.ceil_pos.mpr hx
  have h2 : Nat.ceil ((-Real.pi - (d + 2 * Real.pi)) / (2 * Real.pi))
      ≤ Nat.ceil ((-Real.pi - d) / (2 * Real.pi)) - 1 := by
    rw [harg]
    apply Nat.ceil_le.mpr
    rw [Nat.cast_sub h1]
    have h3 := Nat.le_ceil ((-Real.pi - d) / (2 * Real.pi))
    push_cast
    linarith
  calc Nat.ceil ((-Real.pi - (d + 2 * Real.pi)) / (2 * Real.pi))
      ≤ Nat.ceil ((-Real.pi - d) / (2 * Real.pi)) - 1 := h2
    _ < Nat.ceil ((-Real.pi - d) / (2 * Real.pi)) := Nat.sub_lt (by omega) (by omega)

/-- Embedding of AI.getAngleDifference (src/AI.js lines 185 to 190,
identical in src/unnamed/part_000 lines 143 to 148): the raw difference is
folded into range by the two while loops. -/
noncomputable def getAngleDifference (angle1 angle2 : ℝ) : ℝ :=
  wrapUp (wrapDown (angle2 - angle1))

end AI

namespace Vec

theorem magnitude_nonneg (v : Vec) : 0 ≤ v.magnitude := Real.sqrt_nonneg _

theorem magnitude_eq_sqrt_magnitudeSquared (v : Vec) :
    v.magnitude = Real.sqrt v.magnitudeSquared := rfl

theorem magnitudeSquared_nonneg (v : Vec) : 0 ≤ v.magnitudeSquared := by
  have hx := mul_self_nonneg v.x
  have hy := mul_self_nonneg v.y
  unfold magnitudeSquared
  linarith

theorem sq_magnitude (v : Vec) : v.magnitude * v.magnitude = v.magnitudeSquared := by
  unfold magnitude magnitudeSquared
  exact Real.mul_self_sqrt (by nlinarith [mul_self_nonneg v.x, mul_self_nonneg v.y])

theorem magnitude_multiply (v : Vec) (s : ℝ) :
    (v.multiply s).magnitude = |s| * v.magnitude := by
  unfold multiply magnitude
  have h : v.x * s * (v.x * s) + v.y * s * (v.y * s) = s ^ 2 * (v.x * v.x + v.y * v.y) := by
    ring
  rw [h, Real.sqrt_mul (sq_nonneg s), Real.sqrt_sq_eq_abs]

theorem divide_eq_multiply_inv (v : Vec) (s : ℝ) (hs : s ≠ 0) :
    v.divide s = v.multiply (1 / s) := by
  unfold divide multiply
  simp only [hs, if_true, ne_eq, not_false_iff]
  have hx : v.x / s = v.x * (1 / s) := by field_simp
  have hy : v.y / s = v.y * (1 / s) := by field_simp
  rw [hx, hy]

theorem magnitude_normalize (v : Vec) (h : 0 < v.magnitude) :
    v.normalize.magnitude = 1 := by
  unfold normalize
  rw [if_pos h, divide_eq_multiply_inv v _ (ne_of_gt h), magnitude_multiply]
  rw [abs_of_pos (by positivity)]
  field_simp

theorem distanceTo_eq_magnitude_subtract (v w : Vec) :
    v.distanceTo w = (subtract w v).magnitude := by
  unfold distanceTo subtract magnitude
  norm_num

theorem multiply_multiply (v : Vec) (s t : ℝ) :
    (v.multiply s).multiply t = v.multiply (s * t) := by
  unfold multiply
  simp only [Vec.mk.injEq]
  constructor <;> ring

end Vec

/-- Claim C1: for every body position, mass and gravitational constant
(within the configuration preconditions: positive source radius,
nonnegative masses and G), the force computed by Sun.getGravitationalForce
has magnitude G times M times m over d squared and is a nonnegative scalar
multiple of the vector from the body toward the source whenever the body's
distance d from the source is at least the source radius, and is exactly
the zero vector whenever d is below the source radius. -/
theorem claim1_gravity_force (sun : Sun) (p : Vec) (m G : ℝ)
    (hr : 0 < sun.radius) (hG : 0 ≤ G) (hM : 0 ≤ sun.mass) (hm : 0 ≤ m) :
    ((Vec.subtract sun.position p).magnitude < sun.radius →
      sun.getGravitationalForce p m G = ⟨0, 0⟩) ∧
    (sun.radius ≤ (Vec.subtract sun.position p).magnitude →
      (sun.getGravitationalForce p m G).magnitude
          = G * sun.mass * m / (Vec.subtract sun.position p).magnitude ^ 2 ∧
      ∃ c, 0 ≤ c ∧
        sun.getGravitationalForce p m G
          = (Vec.subtract sun.position p).multiply c) := by
  set dir := Vec.subtract sun.position p with hdir
  have hsq : Real.sqrt dir.magnitudeSquared = dir.magnitude := rfl
  constructor
  · intro h
    unfold Sun.getGravitationalForce
    simp only
    rw [← hdir, hsq, if_pos h]
  · intro h
    have hdpos : 0 < dir.magnitude := lt_of_lt_of_le hr h
    have hF : sun.getGravitationalForce p m G
        = (dir.normalize).multiply (G * sun.mass * m / dir.magnitudeSquared) := by
      unfold Sun.getGravitationalForce
      simp only
      rw [← hdir, hsq, if_neg (not_lt.mpr h)]
    have hsqpos : 0 < dir.magnitudeSquared := by
      rw [← Vec.sq_magnitude]; positivity
    have hknn : 0 ≤ G * sun.mass * m / dir.magnitudeSquared := by positivity
    refine ⟨?_, ?_⟩
    · rw [hF, Vec.magnitude_multiply, Vec.magnitude_normalize dir hdpos,
        abs_of_nonneg hknn, mul_one, ← Vec.sq_magnitude, sq]
    · refine ⟨(1 / dir.magnitude) * (G * sun.mass * m / dir.magnitudeSquared),
        by positivity, ?_⟩
      rw [hF, ← Vec.multiply_multiply]
      unfold Vec.normalize
      rw [if_pos hdpos, Vec.divide_eq_multiply_inv dir _ (ne_of_gt hdpos)]

/-- Witness for claim C1 at a concrete input: sun of mass 1000 and radius 30
at the origin, body at coordinates (0, 50), unit mass, G equal to 1. -/
theorem claim1_gravity_force_witness :
    ((0:ℝ) < 30 ∧ (30:ℝ) ≤ (Vec.subtract ⟨0, 0⟩ ⟨0, 50⟩).magnitude) ∧
    ((Sun.mk ⟨0, 0⟩ 1000 30).getGravitationalForce ⟨0, 50⟩ 1 1).magnitude
      = 1 * 1000 * 1 / (Vec.subtract ⟨0, 0⟩ ⟨0, 50⟩).magnitude ^ 2 := by
  have hmag : (Vec.subtract (⟨0, 0⟩ : Vec) ⟨0, 50⟩).magnitude = 50 := by
    unfold Vec.subtract Vec.magnitude
    simp only
    rw [show ((0:ℝ) - 0) * ((0:ℝ) - 0) + ((0:ℝ) - 50) * ((0:ℝ) - 50) = 50 ^ 2 by norm_num]
    rw [Real.sqrt_sq (by norm_num)]
  have hge : (30:ℝ) ≤ (Vec.subtract (⟨0, 0⟩ : Vec) ⟨0, 50⟩).magnitude := by
    rw [hmag]; norm_num
  refine ⟨⟨by norm_num, hge⟩, ?_⟩
  exact (claim1_gravity_force (Sun.mk ⟨0, 0⟩ 1000 30) ⟨0, 50⟩ 1 1
    (by norm_num) (by norm_num) (by norm_num) (by norm_num)).2 hge |>.1

/-- Claim C2: die while active decrements lives by exactly one and
deactivates; die while already inactive changes nothing at all; respawn is a
no-op unless lives is positive, in which case it reactivates. -/
theorem claim2_die_respawn (r : ℕ → ℝ) (s : Ship) :
    (s.active = true → (Ship.die r s).lives = s.lives - 1 ∧ (Ship.die r s).active = false) ∧
    (s.active = false → Ship.die r s = s) ∧
    (s.lives ≤ 0 → s.respawn = s) ∧
    (0 < s.lives → s.respawn.active = true) := by
  refine ⟨?_, ?_, ?_, ?_⟩
  · intro h
    unfold Ship.die
    rw [if_neg (by simp [h])]
    exact ⟨rfl, rfl⟩
  · intro h
    unfold Ship.die
    rw [if_pos h]
  · intro h
    unfold Ship.respawn
    rw [if_pos h]
  · intro h
    unfold Ship.respawn
    rw [if_neg (by omega : ¬s.lives ≤ 0)]

/-- Witness for claim C2 at concrete inputs: a fresh ship (active, 5 lives),
the same ship after one death (inactive), and a drained ship with 0 lives. -/
theorem claim2_die_respawn_witness :
    ((Ship.init 650 400 0 1 0).active = true ∧
      (Ship.die (fun _ => 0) (Ship.init 650 400 0 1 0)).lives
        = (Ship.init 650 400 0 1 0).lives - 1 ∧
      (Ship.die (fun _ => 0) (Ship.init 650 400 0 1 0)).active = false) ∧
    ((Ship.die (fun _ => 0) (Ship.init 650 400 0 1 0)).active = false ∧
      Ship.die (fun _ => 0) (Ship.die (fun _ => 0) (Ship.init 650 400 0 1 0))
        = Ship.die (fun _ => 0) (Ship.init 650 400 0 1 0)) ∧
    (({ Ship.init 650 400 0 1 0 with lives := 0 } : Ship).lives ≤ 0 ∧
      ({ Ship.init 650 400 0 1 0 with lives := 0 } : Ship).respawn
        = { Ship.init 650 400 0 1 0 with lives := 0 }) ∧
    (0 < (Ship.init 650 400 0 1 0).lives ∧
      (Ship.init 650 400 0 1 0).respawn.active = true) := by
  have hactive : (Ship.init 650 400 0 1 0).active = true := rfl
  have hdead : (Ship.die (fun _ => 0) (Ship.init 650 400 0 1 0)).active = false := by
    unfold Ship.die
    rw [if_neg (by simp [hactive])]
  refine ⟨⟨hactive, ?_, ?_⟩, ⟨hdead, ?_⟩, ⟨?_, ?_⟩, ⟨?_, ?_⟩⟩
  · exact ((claim2_die_respawn (fun _ => 0) (Ship.init 650 400 0 1 0)).1 hactive).1
  · exact ((claim2_die_respawn (fun _ => 0) (Ship.init 650 400 0 1 0)).1 hactive).2
  · exact ((claim2_die_respawn (fun _ => 0)
      (Ship.die (fun _ => 0) (Ship.init 650 400 0 1 0))).2.1 hdead)
  · decide
  · exact ((claim2_die_respawn (fun _ => 0)
      ({ Ship.init 650 400 0 1 0 with lives := 0 })).2.2.1 (by decide))
  · decide
  · exact ((claim2_die_respawn (fun _ => 0) (Ship.init 650 400 0 1 0)).2.2.2 (by decide))

/-- Claim C9: hyperspace with no charges left, or on cooldown, or while
inactive, is a complete no-op: the whole state, position and velocity
included, is unchanged. -/
theorem claim9_hyperspace_noop (r : ℕ → ℝ) (s : Ship)
    (h : s.hyperspaceCharges ≤ 0 ∨ 0 < s.hyperspaceCooldown ∨ s.active = false) :
    Ship.hyperspace r s = s := by
  unfold Ship.hyperspace
  rw [if_pos]
  rcases h with h | h | h
  · exact Or.inr (Or.inr h)
  · exact Or.inr (Or.inl h)
  · exact Or.inl h

/-- Witness for claim C9 at a concrete input: a fresh ship whose hyperspace
charges have been set to 0. -/
theorem claim9_hyperspace_noop_witness :
    ({ Ship.init 650 400 0 1 0 with hyperspaceCharges := 0 } : Ship).hyperspaceCharges ≤ 0 ∧
    Ship.hyperspace (fun _ => 0) { Ship.init 650 400 0 1 0 with hyperspaceCharges := 0 }
      = { Ship.init 650 400 0 1 0 with hyperspaceCharges := 0 } := by
  refine ⟨by decide, ?_⟩
  exact claim9_hyperspace_noop (fun _ => 0) _ (Or.inl (by decide))

/-- One thrust call keeps a velocity that respects the speed cap inside the
speed cap (src/Ship.js lines 52 to 70). -/
theorem thrust_velocity_le (s : Ship) (h : s.velocity.magnitude ≤ 2.25) :
    s.thrust.velocity.magnitude ≤ 2.25 := by
  unfold Ship.thrust
  by_cases hA : s.active = false
  · rw [if_pos hA]; exact h
  rw [if_neg hA]
  by_cases hB : s.fuelEnabled = true ∧ s.fuel ≤ 0
  · rw [if_pos hB]; exact h
  rw [if_neg hB]
  simp only
  set s1 := if s.fuelEnabled = true then { s with fuel := s.fuel - 1.5 } else s with hs1
  have hv1 : s1.velocity = s.velocity := by
    rw [hs1]; split_ifs <;> rfl
  set v := s1.velocity.add ((Vec.fromAngle s1.angle).multiply s1.thrustPower) with hv
  by_cases hC : v.magnitude > 2.25
  · rw [if_pos hC]
    simp only
    rw [Vec.magnitude_multiply, Vec.magnitude_normalize v (lt_trans (by norm_num) hC),
      mul_one, abs_of_nonneg (by norm_num : (0:ℝ) ≤ 2.25)]
  · rw [if_neg hC]
    simp only
    exact le_of_not_lt hC

/-- Claim C5: from any velocity within the maximum speed 2.25, any number of
consecutive thrust calls (no other forces) keeps the velocity magnitude
within 2.25. -/
theorem claim5_thrust_speed_cap (s : Ship) (n : ℕ) (h : s.velocity.magnitude ≤ 2.25) :
    (Ship.thrust^[n] s).velocity.magnitude ≤ 2.25 := by
  induction n generalizing s with
  | zero => simpa using h
  | succ n ih =>
      rw [Function.iterate_succ_apply]
      exact ih _ (thrust_velocity_le s h)

theorem energyInv_of_eq {s t : Ship} (he : t.energy = s.energy)
    (hm : t.maxEnergy = s.maxEnergy) (h : EnergyInv s) : EnergyInv t := by
  obtain ⟨h1, k, hk, h2⟩ := h
  exact ⟨hm.trans h1, k, hk, he.trans h2⟩

theorem energyInv_of_refill {s t : Ship} (he : t.energy = s.maxEnergy)
    (hm : t.maxEnergy = s.maxEnergy) (h : EnergyInv s) : EnergyInv t := by
  refine ⟨hm.trans h.1, 4000, le_refl _, ?_⟩
  rw [he, h.1]
  norm_num

theorem shieldInv_of_frame {s t : Ship} (ha : t.active = s.active)
    (hs : t.shieldActive = s.shieldActive) (h : ShieldInv s) : ShieldInv t := by
  intro hf
  rw [hs]
  exact h (by rw [← ha]; exact hf)

theorem energyInv_init (x y a : ℝ) (i : ℤ) (c : ℕ) : EnergyInv (Ship.init x y a i c) :=
  ⟨rfl, 4000, le_refl _, by norm_num [Ship.init]⟩

theorem shieldInv_init (x y a : ℝ) (i : ℤ) (c : ℕ) : ShieldInv (Ship.init x y a i c) := by
  intro hf
  rfl

theorem thrust_frame (s : Ship) :
    s.thrust.energy = s.energy ∧ s.thrust.maxEnergy = s.maxEnergy ∧
    s.thrust.active = s.active ∧ s.thrust.shieldActive = s.shieldActive := by
  unfold Ship.thrust
  simp only
  split_ifs <;> exact ⟨rfl, rfl, rfl, rfl⟩

theorem rotate_frame (d : ℝ) (s : Ship) :
    (Ship.rotate d s).energy = s.energy ∧ (Ship.rotate d s).maxEnergy = s.maxEnergy ∧
    (Ship.rotate d s).active = s.active ∧ (Ship.rotate d s).shieldActive = s.shieldActive := by
  unfold Ship.rotate
  simp only
  split_ifs <;> exact ⟨rfl, rfl, rfl, rfl⟩

theorem applyForce_frame (f : Vec) (s : Ship) :
    (Ship.applyForce f s).energy = s.energy ∧ (Ship.applyForce f s).maxEnergy = s.maxEnergy ∧
    (Ship.applyForce f s).active = s.active ∧
    (Ship.applyForce f s).shieldActive = s.shieldActive :=
  ⟨rfl, rfl, rfl, rfl⟩

theorem shoot_frame (s : Ship) :
    s.shoot.1.energy = s.energy ∧ s.shoot.1.maxEnergy = s.maxEnergy ∧
    s.shoot.1.active = s.active ∧ s.shoot.1.shieldActive = s.shieldActive := by
  unfold Ship.shoot
  split_ifs <;> exact ⟨rfl, rfl, rfl, rfl⟩

theorem addFuel_frame (a : ℝ) (s : Ship) :
    (Ship.addFuel a s).energy = s.energy ∧ (Ship.addFuel a s).maxEnergy = s.maxEnergy ∧
    (Ship.addFuel a s).active = s.active ∧
    (Ship.addFuel a s).shieldActive = s.shieldActive := by
  unfold Ship.addFuel
  split_ifs <;> exact ⟨rfl, rfl, rfl, rfl⟩

theorem setShield_energy (b : Bool) (s : Ship) :
    (Ship.setShield b s).energy = s.energy ∧
    (Ship.setShield b s).maxEnergy = s.maxEnergy := by
  unfold Ship.setShield
  split_ifs <;> exact ⟨rfl, rfl⟩

theorem startGameReset_frame (b : Bool) (s : Ship) :
    (Ship.startGameReset b s).energy = s.energy ∧
    (Ship.startGameReset b s).maxEnergy = s.maxEnergy ∧
    (Ship.startGameReset b s).active = true :=
  ⟨rfl, rfl, rfl⟩

theorem energyInv_die (r : ℕ → ℝ) (s : Ship) (h : EnergyInv s) :
    EnergyInv (Ship.die r s) := by
  unfold Ship.die
  split_ifs
  · exact h
  · exact energyInv_of_refill rfl rfl h

theorem energyInv_resetToStart (s : Ship) (h : EnergyInv s) :
    EnergyInv s.resetToStart :=
  energyInv_of_refill rfl rfl h

theorem energyInv_respawn (s : Ship) (h : EnergyInv s) : EnergyInv s.respawn := by
  unfold Ship.respawn
  split_ifs
  · exact h
  · exact energyInv_of_refill rfl rfl h

theorem energyInv_hyperspace (r : ℕ → ℝ) (s : Ship) (h : EnergyInv s) :
    EnergyInv (Ship.hyperspace r s) := by
  unfold Ship.hyperspace
  simp only
  split_ifs
  · exact h
  · exact energyInv_die _ _ (energyInv_of_eq rfl rfl h)
  · exact energyInv_of_eq rfl rfl h

theorem energyInv_updParticles (t : Ship) (l : List Particle) (h : EnergyInv t) :
    EnergyInv { t with explosionParticles := l } :=
  ⟨h.1, h.2⟩

set_option maxHeartbeats 2000000 in
theorem energyInv_update (cw ch : ℝ) (s : Ship) (hs : EnergyInv s) :
    EnergyInv (Ship.update cw ch s) := by
  obtain ⟨hmax, k, hk, he⟩ := hs
  have hdrop : ¬s.energy - 0.5 ≤ 0 → 20 < k := by
    intro hc
    by_contra hcon
    push_neg at hcon
    apply hc
    rw [he]
    have hcast : (k : ℝ) ≤ 20 := by exact_mod_cast hcon
    linarith
  have hbump : s.energy < s.maxEnergy → k < 4000 := by
    intro hc
    rw [he, hmax] at hc
    have hc2 : (k : ℝ) < 4000 := by linarith
    exact_mod_cast hc2
  unfold Ship.update
  simp only
  split_ifs with h1 h2 h3 h4 h5 h6 h7 h8 h9 h10 h11 h12 h13 h14 h15
  all_goals
    try (unfold Ship.respawn; split_ifs)
  all_goals
    first
    | exact ⟨hmax, k, hk, he⟩
    | exact ⟨hmax, 0, by norm_num, show (0:ℝ) = ((0:ℕ):ℝ) / 40 by norm_num⟩
    | exact ⟨hmax, 4000, le_refl _,
        show s.maxEnergy = ((4000:ℕ):ℝ) / 40 by rw [hmax]; norm_num⟩
    | (refine ⟨hmax, k - 20, by have := hdrop (by assumption); omega, ?_⟩
       have h20 : 20 < k := hdrop (by assumption)
       show s.energy - 0.5 = ((k - 20 : ℕ) : ℝ) / 40
       rw [he, Nat.cast_sub (by omega)]
       push_cast
       ring)
    | (refine ⟨hmax, k + 1, by have := hbump (by assumption); omega, ?_⟩
       show s.energy + 0.025 = ((k + 1 : ℕ) : ℝ) / 40
       rw [he]
       push_cast
       ring)

theorem shieldInv_setShield (b : Bool) (s : Ship) (h : ShieldInv s) :
    ShieldInv (Ship.setShield b s) := by
  unfold Ship.setShield
  split_ifs with h1 h2
  · exact fun _ => rfl
  · exact fun hf => absurd hf h1
  · exact fun _ => rfl

theorem shieldInv_die (r : ℕ → ℝ) (s : Ship) (h : ShieldInv s) :
    ShieldInv (Ship.die r s) := by
  unfold Ship.die
  split_ifs
  · exact h
  · exact fun _ => rfl

theorem shieldInv_resetToStart (s : Ship) : ShieldInv s.resetToStart :=
  fun _ => rfl

theorem shieldInv_respawn (s : Ship) (h : ShieldInv s) : ShieldInv s.respawn := by
  unfold Ship.respawn
  split_ifs
  · exact h
  · exact fun hf => Bool.noConfusion hf

theorem shieldInv_startGameReset (b : Bool) (s : Ship) :
    ShieldInv (Ship.startGameReset b s) :=
  fun hf => Bool.noConfusion hf

theorem shieldInv_hyperspace (r : ℕ → ℝ) (s : Ship) (h : ShieldInv s) :
    ShieldInv (Ship.hyperspace r s) := by
  unfold Ship.hyperspace
  simp only
  split_ifs with h1 h2
  · exact h
  · exact shieldInv_die _ _ h
  · exact h

set_option maxHeartbeats 2000000 in
theorem shieldInv_update (cw ch : ℝ) (s : Ship) (h : ShieldInv s) :
    ShieldInv (Ship.update cw ch s) := by
  unfold Ship.update
  simp only
  split_ifs with h1 h2 h3 h4 h5 h6 h7 h8 h9 h10 h11 h12 h13 h14 h15
  all_goals
    try (unfold Ship.respawn; split_ifs)
  all_goals
    first
    | exact fun _ => rfl
    | exact fun hf => absurd hf (by assumption)
    | exact fun _ => h (by assumption)
    | exact fun _ => absurd (h (by assumption)) (by simp [h1])

set_option maxHeartbeats 1000000 in
/-- While inactive with the shield already down, update never raises the
shield (src/Ship.js lines 152 to 183: no branch of update assigns true to
shieldActive). -/
theorem update_no_raise (cw ch : ℝ) (s : Ship) (ha : s.active = false)
    (hs : s.shieldActive = false) : (Ship.update cw ch s).shieldActive = false := by
  unfold Ship.update
  simp only
  split_ifs with h1 h2 h3 h4 h5 h6 h7 h8 h9 h10 h11 h12 h13 h14 h15
  all_goals
    try (unfold Ship.respawn; split_ifs)
  all_goals
    first
    | rfl
    | exact hs
    | (exact absurd (show s.shieldActive = true from by assumption)
        (by rw [hs]; exact Bool.false_ne_true))
    | (exact absurd ha (by assumption))

/-- Every reachable ship state satisfies the energy bookkeeping invariant. -/
theorem reachable_energyInv (s : Ship) (hr : Reachable s) : EnergyInv s := by
  induction hr with
  | init x y a i c => exact energyInv_init x y a i c
  | step hprev hstep ih =>
      cases hstep
      all_goals
        first
        | exact energyInv_hyperspace _ _ ih
        | exact energyInv_die _ _ ih
        | exact energyInv_respawn _ ih
        | exact energyInv_resetToStart _ ih
        | exact energyInv_update _ _ _ ih
        | exact energyInv_of_eq (thrust_frame _).1 (thrust_frame _).2.1 ih
        | exact energyInv_of_eq (rotate_frame _ _).1 (rotate_frame _ _).2.1 ih
        | exact energyInv_of_eq (applyForce_frame _ _).1 (applyForce_frame _ _).2.1 ih
        | exact energyInv_of_eq (setShield_energy _ _).1 (setShield_energy _ _).2 ih
        | exact energyInv_of_eq (shoot_frame _).1 (shoot_frame _).2.1 ih
        | exact energyInv_of_eq (addFuel_frame _ _).1 (addFuel_frame _ _).2.1 ih
        | exact energyInv_of_eq (startGameReset_frame _ _).1 (startGameReset_frame _ _).2.1 ih

/-- Every reachable ship state satisfies the shield coherence invariant. -/
theorem reachable_shieldInv (s : Ship) (hr : Reachable s) : ShieldInv s := by
  induction hr with
  | init x y a i c => exact shieldInv_init x y a i c
  | step hprev hstep ih =>
      cases hstep
      all_goals
        first
        | exact shieldInv_setShield _ _ ih
        | exact shieldInv_hyperspace _ _ ih
        | exact shieldInv_die _ _ ih
        | exact shieldInv_respawn _ ih
        | exact shieldInv_resetToStart _
        | exact shieldInv_update _ _ _ ih
        | exact shieldInv_startGameReset _ _
        | exact shieldInv_of_frame (thrust_frame _).2.2.1 (thrust_frame _).2.2.2 ih
        | exact shieldInv_of_frame (rotate_frame _ _).2.2.1 (rotate_frame _ _).2.2.2 ih
        | exact shieldInv_of_frame (applyForce_frame _ _).2.2.1 (applyForce_frame _ _).2.2.2 ih
        | exact shieldInv_of_frame (shoot_frame _).2.2.1 (shoot_frame _).2.2.2 ih
        | exact shieldInv_of_frame (addFuel_frame _ _).2.2.1 (addFuel_frame _ _).2.2.2 ih

/-- Claim C4: on every reachable state the energy lies in the closed
interval from 0 to maxEnergy; the tick the drain takes the energy of an
active shielded ship to zero, update sets it to exactly zero and lowers the
shield; and setShield true never raises the shield at energy at most the
threshold 5 or on an inactive ship. -/
theorem claim4_energy_bounds :
    (∀ s : Ship, Reachable s → 0 ≤ s.energy ∧ s.energy ≤ s.maxEnergy) ∧
    (∀ (cw ch : ℝ) (s : Ship), s.active = true → s.shieldActive = true →
      s.energy - 0.5 ≤ 0 →
      (Ship.update cw ch s).energy = 0 ∧ (Ship.update cw ch s).shieldActive = false) ∧
    (∀ s : Ship, s.energy ≤ 5 ∨ s.active = false →
      (Ship.setShield true s).shieldActive = false) := by
  refine ⟨?_, ?_, ?_⟩
  · intro s hr
    obtain ⟨hmax, k, hk, he⟩ := reachable_energyInv s hr
    constructor
    · rw [he]; positivity
    · rw [he, hmax]
      have hcast : (k : ℝ) ≤ 4000 := by exact_mod_cast hk
      linarith
  · intro cw ch s hact hsh hdr
    unfold Ship.update
    simp only
    split_ifs with h1 h2 h3 h4
    all_goals
      first
      | exact ⟨rfl, rfl⟩
      | exact absurd hsh (by assumption)
      | exact absurd hdr (by assumption)
      | exact absurd (show s.active = false from by assumption) (by simp [hact])
  · intro s hcond
    unfold Ship.setShield
    split_ifs with h1 h2
    · rfl
    · rcases hcond with hc | hc
      · exact absurd h2.2 (by simp only [not_lt]; exact hc)
      · exact absurd hc h1
    · rfl

/-- Witness for claim C4 at concrete inputs: a fresh ship for the bounds, a
shielded ship at energy 0.25 for the auto-lowering tick, and a ship at
energy 3 for the raise refusal. -/
theorem claim4_energy_bounds_witness :
    (0 ≤ (Ship.init 650 400 0 1 0).energy ∧
      (Ship.init 650 400 0 1 0).energy ≤ (Ship.init 650 400 0 1 0).maxEnergy) ∧
    (({ Ship.init 650 400 0 1 0 with shieldActive := true, energy := 0.25 } : Ship).active
        = true ∧
      (Ship.update 800 800
        { Ship.init 650 400 0 1 0 with shieldActive := true, energy := 0.25 }).energy = 0 ∧
      (Ship.update 800 800
        { Ship.init 650 400 0 1 0 with shieldActive := true, energy := 0.25 }).shieldActive
        = false) ∧
    (({ Ship.init 650 400 0 1 0 with energy := 3 } : Ship).energy ≤ 5 ∧
      (Ship.setShield true { Ship.init 650 400 0 1 0 with energy := 3 }).shieldActive
        = false) := by
  have h2 := claim4_energy_bounds.2.1 800 800
    { Ship.init 650 400 0 1 0 with shieldActive := true, energy := 0.25 }
    rfl rfl (show (0.25:ℝ) - 0.5 ≤ 0 by norm_num)
  refine ⟨claim4_energy_bounds.1 _ (Reachable.init 650 400 0 1 0), ⟨rfl, h2.1, h2.2⟩,
    show (3:ℝ) ≤ 5 by norm_num, ?_⟩
  exact claim4_energy_bounds.2.2 _ (Or.inl (show (3:ℝ) ≤ 5 by norm_num))

/-- Claim C10: on every reachable state an inactive ship has its shield
down; die on an active ship deactivates it and clears the shield; setShield
with any argument on an inactive ship leaves the shield down; and update on
an inactive ship with the shield down never raises it. -/
theorem claim10_inactive_shield_down :
    (∀ s : Ship, Reachable s → s.active = false → s.shieldActive = false) ∧
    (∀ (r : ℕ → ℝ) (s : Ship), s.active = true →
      (Ship.die r s).active = false ∧ (Ship.die r s).shieldActive = false) ∧
    (∀ (b : Bool) (s : Ship), s.active = false →
      (Ship.setShield b s).shieldActive = false) ∧
    (∀ (cw ch : ℝ) (s : Ship), s.active = false → s.shieldActive = false →
      (Ship.update cw ch s).shieldActive = false) := by
  refine ⟨?_, ?_, ?_, ?_⟩
  · intro s hr
    exact reachable_shieldInv s hr
  · intro r s hact
    unfold Ship.die
    rw [if_neg (by simp [hact])]
    exact ⟨rfl, rfl⟩
  · intro b s hin
    unfold Ship.setShield
    rw [if_pos hin]
  · exact update_no_raise

/-- Witness for claim C10 at concrete inputs: a fresh ship and the reachable
state obtained by letting it die once. -/
theorem claim10_inactive_shield_down_witness :
    ((Ship.die (fun _ => 0) (Ship.init 650 400 0 1 0)).active = false ∧
      (Ship.die (fun _ => 0) (Ship.init 650 400 0 1 0)).shieldActive = false) ∧
    ((Ship.init 650 400 0 1 0).active = true ∧
      (Ship.die (fun _ => 1) (Ship.init 650 400 0 1 0)).shieldActive = false) ∧
    (Ship.setShield true (Ship.die (fun _ => 0) (Ship.init 650 400 0 1 0))).shieldActive
      = false ∧
    (Ship.update 800 800 (Ship.die (fun _ => 0) (Ship.init 650 400 0 1 0))).shieldActive
      = false := by
  have hr : Reachable (Ship.die (fun _ => 0) (Ship.init 650 400 0 1 0)) :=
    Reachable.step (Reachable.init 650 400 0 1 0)
      (ShipStep.die (fun _ => 0) (Ship.init 650 400 0 1 0))
  have hdead : (Ship.die (fun _ => 0) (Ship.init 650 400 0 1 0)).active = false := by
    unfold Ship.die
    rw [if_neg (by simp [show (Ship.init 650 400 0 1 0).active = true from rfl])]
  have hshield := claim10_inactive_shield_down.1 _ hr hdead
  refine ⟨⟨hdead, hshield⟩, ⟨rfl, ?_⟩, ?_, ?_⟩
  · exact (claim10_inactive_shield_down.2.1 (fun _ => 1) (Ship.init 650 400 0 1 0) rfl).2
  · exact claim10_inactive_shield_down.2.2.1 true _ hdead
  · exact claim10_inactive_shield_down.2.2.2 800 800 _ hdead hshield

/-- Witness for claim C5 at a concrete input: a fresh ship at rest, three
consecutive thrusts. -/
theorem claim5_thrust_speed_cap_witness :
    (Ship.init 650 400 0 1 0).velocity.magnitude ≤ 2.25 ∧
    (Ship.thrust^[3] (Ship.init 650 400 0 1 0)).velocity.magnitude ≤ 2.25 := by
  have h0 : (Ship.init 650 400 0 1 0).velocity.magnitude = 0 := by
    unfold Ship.init Vec.magnitude
    simp only
    rw [show (0:ℝ) * 0 + 0 * 0 = 0 by norm_num, Real.sqrt_zero]
  refine ⟨by rw [h0]; norm_num, ?_⟩
  exact claim5_thrust_speed_cap (Ship.init 650 400 0 1 0) 3 (by rw [h0]; norm_num)

/-- Claim C3: in the shielded variant's projectile-versus-combatant
resolution, a non-owner projectile hitting a combatant whose shield is up
leaves that combatant undamaged (lives and active flag unchanged) while the
projectile does not survive the pass; the combatant can die in this pass
only with the shield down. -/
theorem claim3_shield_absorbs (r : ℕ → ℝ) (b : Bullet) (s1 s2 : Ship)
    (hown : b.ownerId ≠ s2.id) (hsh : s2.shieldActive = true)
    (hhit : b.checkCollision s2.position (s2.radius + 8)) :
    (resolveBulletShield r b s1 s2).2.1.lives = s2.lives ∧
    (resolveBulletShield r b s1 s2).2.1.active = s2.active ∧
    (resolveBulletShield r b s1 s2).2.2 ≠ BulletFate.kept := by
  have hhit2 : b.checkCollision s2.position
      (s2.radius + if s2.shieldActive = true then 8 else 0) := by
    rw [if_pos hsh]
    exact hhit
  unfold resolveBulletShield
  by_cases h1 : b.ownerId ≠ s1.id ∧
      b.checkCollision s1.position (s1.radius + if s1.shieldActive = true then 8 else 0)
  · rw [if_pos h1]
    by_cases hsh1 : s1.shieldActive = true
    · rw [if_pos hsh1]
      exact ⟨rfl, rfl, fun h => BulletFate.noConfusion h⟩
    · rw [if_neg hsh1]
      exact ⟨rfl, rfl, fun h => BulletFate.noConfusion h⟩
  · rw [if_neg h1, if_pos ⟨hown, hhit2⟩, if_pos hsh]
    exact ⟨rfl, rfl, fun h => BulletFate.noConfusion h⟩

/-- Witness for claim C3 at a concrete input: a bullet owned by ship 1
sitting exactly on a shielded ship 2. -/
theorem claim3_shield_absorbs_witness :
    ((mkBullet 100 100 0 ⟨0, 0⟩ 1 5).ownerId
        ≠ ({ Ship.init 100 100 0 2 1 with shieldActive := true } : Ship).id ∧
      ({ Ship.init 100 100 0 2 1 with shieldActive := true } : Ship).shieldActive = true) ∧
    ((resolveBulletShield (fun _ => 0) (mkBullet 100 100 0 ⟨0, 0⟩ 1 5)
        (Ship.init 650 400 0 1 0)
        { Ship.init 100 100 0 2 1 with shieldActive := true }).2.1.lives
      = ({ Ship.init 100 100 0 2 1 with shieldActive := true } : Ship).lives ∧
    (resolveBulletShield (fun _ => 0) (mkBullet 100 100 0 ⟨0, 0⟩ 1 5)
        (Ship.init 650 400 0 1 0)
        { Ship.init 100 100 0 2 1 with shieldActive := true }).2.2 ≠ BulletFate.kept) := by
  have hown : (mkBullet 100 100 0 ⟨0, 0⟩ 1 5).ownerId
      ≠ ({ Ship.init 100 100 0 2 1 with shieldActive := true } : Ship).id := by
    show (1 : ℤ) ≠ 2
    decide
  have hhit : (mkBullet 100 100 0 ⟨0, 0⟩ 1 5).checkCollision
      ({ Ship.init 100 100 0 2 1 with shieldActive := true } : Ship).position
      (({ Ship.init 100 100 0 2 1 with shieldActive := true } : Ship).radius + 8) := by
    refine ⟨rfl, ?_⟩
    show Real.sqrt ((100 - 100) * (100 - 100) + (100 - 100) * (100 - 100)) < 2 + (10 + 8)
    rw [show ((100:ℝ) - 100) * (100 - 100) + (100 - 100) * (100 - 100) = 0 by norm_num,
      Real.sqrt_zero]
    norm_num
  have h := claim3_shield_absorbs (fun _ => 0) (mkBullet 100 100 0 ⟨0, 0⟩ 1 5)
    (Ship.init 650 400 0 1 0) { Ship.init 100 100 0 2 1 with shieldActive := true }
    hown rfl hhit
  exact ⟨⟨hown, rfl⟩, h.1, h.2.2⟩

/-- Claim C6: in the plain variant's bullet pass, a projectile whose owner
is ship 1 never harms ship 1 (its lives and active flag are untouched for
any positions), and when it overlaps the active, unshielded ship 2 it kills
it, decrementing its lives by one. -/
theorem claim6_owner_immunity (r : ℕ → ℝ) (b : Bullet) (s1 s2 : Ship)
    (hown : b.ownerId = s1.id) (hids : s1.id ≠ s2.id) :
    ((resolveBullet r b s1 s2).1.lives = s1.lives ∧
      (resolveBullet r b s1 s2).1.active = s1.active) ∧
    (s2.active = true → s2.shieldActive = false →
      b.checkCollision s2.position s2.radius →
      (resolveBullet r b s1 s2).2.1.active = false ∧
      (resolveBullet r b s1 s2).2.1.lives = s2.lives - 1) := by
  unfold resolveBullet
  rw [if_neg (by simp [hown])]
  split_ifs with h2
  · refine ⟨⟨rfl, rfl⟩, ?_⟩
    intro hact _ _
    show (Ship.die r s2).active = false ∧ (Ship.die r s2).lives = s2.lives - 1
    unfold Ship.die
    rw [if_neg (by simp [hact])]
    exact ⟨rfl, rfl⟩
  · refine ⟨⟨rfl, rfl⟩, ?_⟩
    intro _ _ hhit
    exact absurd ⟨by rw [hown]; exact hids, hhit⟩ h2

/-- Witness for claim C6 at a concrete input: a bullet owned by ship 1
sitting exactly on the active unshielded ship 2. -/
theorem claim6_owner_immunity_witness :
    ((mkBullet 100 100 0 ⟨0, 0⟩ 1 5).ownerId = (Ship.init 650 400 0 1 0).id ∧
      (Ship.init 100 100 0 2 1).active = true ∧
      (Ship.init 100 100 0 2 1).shieldActive = false) ∧
    ((resolveBullet (fun _ => 0) (mkBullet 100 100 0 ⟨0, 0⟩ 1 5)
        (Ship.init 650 400 0 1 0) (Ship.init 100 100 0 2 1)).1.lives
      = (Ship.init 650 400 0 1 0).lives ∧
    (resolveBullet (fun _ => 0) (mkBullet 100 100 0 ⟨0, 0⟩ 1 5)
        (Ship.init 650 400 0 1 0) (Ship.init 100 100 0 2 1)).2.1.active = false ∧
    (resolveBullet (fun _ => 0) (mkBullet 100 100 0 ⟨0, 0⟩ 1 5)
        (Ship.init 650 400 0 1 0) (Ship.init 100 100 0 2 1)).2.1.lives
      = (Ship.init 100 100 0 2 1).lives - 1) := by
  have hown : (mkBullet 100 100 0 ⟨0, 0⟩ 1 5).ownerId = (Ship.init 650 400 0 1 0).id := by
    show (1 : ℤ) = 1
    rfl
  have hhit : (mkBullet 100 100 0 ⟨0, 0⟩ 1 5).checkCollision
      (Ship.init 100 100 0 2 1).position (Ship.init 100 100 0 2 1).radius := by
    refine ⟨rfl, ?_⟩
    show Real.sqrt ((100 - 100) * (100 - 100) + (100 - 100) * (100 - 100)) < 2 + 10
    rw [show ((100:ℝ) - 100) * (100 - 100) + (100 - 100) * (100 - 100) = 0 by norm_num,
      Real.sqrt_zero]
    norm_num
  have h := claim6_owner_immunity (fun _ => 0) (mkBullet 100 100 0 ⟨0, 0⟩ 1 5)
    (Ship.init 650 400 0 1 0) (Ship.init 100 100 0 2 1) hown (by decide)
  have h2 := h.2 rfl rfl hhit
  exact ⟨⟨hown, rfl, rfl⟩, h.1.1, h2.1, h2.2⟩

/-- The part_001 update never touches the lifetime field: nothing ever
decrements it. -/
theorem updateOld_lifetime (w h : ℝ) (b : Bullet) :
    (Bullet.updateOld w h b).lifetime = b.lifetime := by
  unfold Bullet.updateOld
  by_cases hb : b.active = false
  · rw [if_pos hb]
  · rw [if_neg hb]
    simp only
    rcases b.age with _ | a
    · simp only [Option.map_none']
      split_ifs <;> rfl
    · simp only [Option.map_some']
      split_ifs <;> rfl

/-- Claim C7 (defect evidence): in the src/unnamed/part_001 variant the
lifetime field is never decremented and the uninitialized age counter keeps
the lifetime check permanently false, so a bullet parked inside the canvas
(inherited velocity (-4, 0) cancelling the muzzle speed at angle 0) is still
active after every number of steps, contradicting retirement after at most
its initial lifetime of 200 steps. -/
theorem claim7_lifetime_never_expires :
    (∀ (w h : ℝ) (b : Bullet), (Bullet.updateOld w h b).lifetime = b.lifetime) ∧
    ∀ n : ℕ,
      ((Bullet.updateOld 800 800)^[n] (mkBullet 400 400 0 ⟨-4, 0⟩ 1 0)).active = true := by
  refine ⟨updateOld_lifetime, ?_⟩
  have hvel : (mkBullet 400 400 0 ⟨-4, 0⟩ 1 0).velocity = ⟨0, 0⟩ := by
    show (⟨-4 + Real.cos 0 * 4, 0 + Real.sin 0 * 4⟩ : Vec) = ⟨0, 0⟩
    rw [Real.cos_zero, Real.sin_zero]
    norm_num
  have hpos : (mkBullet 400 400 0 ⟨-4, 0⟩ 1 0).position.add
      (mkBullet 400 400 0 ⟨-4, 0⟩ 1 0).velocity = ⟨400, 400⟩ := by
    rw [hvel]
    show (⟨(400:ℝ) + 0, (400:ℝ) + 0⟩ : Vec) = ⟨400, 400⟩
    norm_num
  have hfix : Bullet.updateOld 800 800 (mkBullet 400 400 0 ⟨-4, 0⟩ 1 0)
      = mkBullet 400 400 0 ⟨-4, 0⟩ 1 0 := by
    unfold Bullet.updateOld
    rw [if_neg (by simp [mkBullet])]
    simp only [show (mkBullet 400 400 0 ⟨-4, 0⟩ 1 0).age = none from rfl, hpos,
      Option.map_none']
    rw [if_neg (by norm_num)]
    rfl
  intro n
  rw [Function.iterate_fixed hfix]
  rfl

/-- The src/unnamed/part_002 update is a no-op on inactive bullets. -/
theorem updateNew_inactive (w h : ℝ) (b : Bullet) (hb : b.active = false) :
    Bullet.updateNew w h b = b := by
  rw [Bullet.updateNew, if_pos hb]

open Classical in
/-- In contrast, the src/unnamed/part_002 variant really decrements the
lifetime: a still-active bullet after one step was active before and lost
exactly one frame of lifetime, which moreover stays positive. -/
theorem updateNew_active_step (w h : ℝ) (b : Bullet)
    (hact : (Bullet.updateNew w h b).active = true) :
    b.active = true ∧ (Bullet.updateNew w h b).lifetime = b.lifetime - 1 ∧
      0 < (Bullet.updateNew w h b).lifetime := by
  by_cases hb : b.active = false
  · rw [Bullet.updateNew, if_pos hb] at hact
    rw [hact] at hb
    exact absurd hb (by simp)
  refine ⟨by revert hb; cases b.active <;> simp, ?_⟩
  rw [Bullet.updateNew, if_neg hb] at hact ⊢
  simp only at hact ⊢
  by_cases h1 : b.lifetime - 1 ≤ 0
  · rw [if_pos h1] at hact
    rw [apply_ite Bullet.active] at hact
    simp at hact
  · rw [if_neg h1] at hact ⊢
    rw [apply_ite Bullet.active] at hact
    rcases ite_eq_iff.mp hact with ⟨hC, hfalse⟩ | ⟨hnC, hother⟩
    · exact absurd hfalse (by simp)
    · rw [if_neg hnC]
      refine ⟨rfl, ?_⟩
      push_neg at h1
      exact h1

/-- In the src/unnamed/part_002 variant every bullet with a positive
lifetime is retired after at most that many steps. -/
theorem updateNew_expires (w h : ℝ) (b : Bullet) (n : ℕ)
    (hpos : 0 < b.lifetime) (hn : b.lifetime ≤ n) :
    ((Bullet.updateNew w h)^[n] b).active = false := by
  by_contra hcon
  rw [Bool.not_eq_false] at hcon
  have key : ∀ (m : ℕ) (c : Bullet), ((Bullet.updateNew w h)^[m] c).active = true →
      ((Bullet.updateNew w h)^[m] c).lifetime = c.lifetime - m ∧
      (0 < m → 0 < ((Bullet.updateNew w h)^[m] c).lifetime) := by
    intro m
    induction m with
    | zero => intro c hc; simp
    | succ m ih =>
        intro c hc
        rw [Function.iterate_succ_apply] at hc ⊢
        have hstep : (Bullet.updateNew w h c).active = true := by
          by_contra hdead
          rw [Bool.not_eq_true] at hdead
          rw [Function.iterate_fixed (updateNew_inactive w h _ hdead) m] at hc
          rw [hdead] at hc
          exact Bool.noConfusion hc
        obtain ⟨hprev, hlif, hposl⟩ := updateNew_active_step w h c hstep
        obtain ⟨ih1, ih2⟩ := ih (Bullet.updateNew w h c) hc
        constructor
        · rw [ih1, hlif]
          push_cast
          ring
        · intro _
          rcases Nat.eq_zero_or_pos m with hm | hm
          · subst hm
            simpa using hposl
          · exact ih2 hm
  obtain ⟨hlif, hposn⟩ := key n b hcon
  have hn1 : 0 < n := by
    rcases Nat.eq_zero_or_pos n with h0 | h0
    · subst h0
      simp only [Nat.cast_zero] at hn
      linarith
    · exact h0
  have := hposn hn1
  rw [hlif] at this
  have hcast : (n : ℝ) ≥ b.lifetime := hn
  linarith

namespace AI

theorem wrapDown_le (d : ℝ) : wrapDown d ≤ Real.pi := by
  induction d using wrapDown.induct with
  | case1 d h ih => rw [wrapDown, dif_pos h]; exact ih
  | case2 d h => rw [wrapDown, dif_neg h]; exact le_of_not_lt h

theorem wrapDown_ge (d : ℝ) (hd : -Real.pi ≤ d) : -Real.pi ≤ wrapDown d := by
  induction d using wrapDown.induct with
  | case1 d h ih =>
      rw [wrapDown, dif_pos h]
      exact ih (by have := Real.pi_pos; linarith)
  | case2 d h => rw [wrapDown, dif_neg h]; exact hd

theorem wrapUp_ge (d : ℝ) : -Real.pi ≤ wrapUp d := by
  induction d using wrapUp.induct with
  | case1 d h ih => rw [wrapUp, dif_pos h]; exact ih
  | case2 d h => rw [wrapUp, dif_neg h]; exact le_of_not_lt h

theorem wrapUp_le (d : ℝ) (hd : d ≤ Real.pi) : wrapUp d ≤ Real.pi := by
  induction d using wrapUp.induct with
  | case1 d h ih =>
      rw [wrapUp, dif_pos h]
      exact ih (by have := Real.pi_pos; linarith)
  | case2 d h => rw [wrapUp, dif_neg h]; exact hd

end AI

/-- Claim C8 counterexample: the angular difference of 0 and minus pi is
exactly minus pi, which does not lie in the claimed half-open interval
excluding minus pi. -/
theorem claim8_angle_difference_counterexample :
    AI.getAngleDifference 0 (-Real.pi) = -Real.pi ∧
    ¬(-Real.pi < AI.getAngleDifference 0 (-Real.pi)) := by
  have hpi := Real.pi_pos
  have hdown : AI.wrapDown (-Real.pi - 0) = -Real.pi := by
    rw [show -Real.pi - 0 = -Real.pi by ring, AI.wrapDown, dif_neg (by linarith)]
  have h : AI.getAngleDifference 0 (-Real.pi) = -Real.pi := by
    unfold AI.getAngleDifference
    rw [hdown, AI.wrapUp, dif_neg (lt_irrefl _)]
  exact ⟨h, by rw [h]; exact lt_irrefl _⟩

/-- Claim C8 as amended: for all real angles the helper returns a value in
the closed interval from minus pi to pi (the left endpoint is attainable),
and the difference of an angle with itself is zero. -/
theorem claim8_angle_difference_range (a b : ℝ) :
    -Real.pi ≤ AI.getAngleDifference a b ∧ AI.getAngleDifference a b ≤ Real.pi ∧
    AI.getAngleDifference a a = 0 := by
  have hpi := Real.pi_pos
  refine ⟨AI.wrapUp_ge _, AI.wrapUp_le _ (AI.wrapDown_le _), ?_⟩
  unfold AI.getAngleDifference
  rw [show a - a = 0 by ring, AI.wrapDown, dif_neg (by linarith),
    AI.wrapUp, dif_neg (by linarith)]

end Spacewar
